import Mathlib

/-!
Verification of the Telegram-to-Google-Drive bot (two near-duplicate
variants: `mobile_friendly_bot.py` and `render_compatible_bot.py`).

Shallow embedding notes:
* The chat transport and the storage provider are opaque collaborators.
  Their behaviour during one `handle_file` run is captured by a `World`
  script: the outcome of `bot.get_file`, the list of download chunk sizes
  yielded by `download_chunk` (with an optional exception raised by the
  iterator afterwards), the outcome of each `edit_text` call (indexed by a
  running call counter), the outcome of `get_drive_service`, and the
  events produced by the resumable upload loop (`request.next_chunk`).
* Python exceptions are modelled with `Except`; `googleapiclient`'s
  `HttpError` is distinguished from every other exception because the
  source has a dedicated `except HttpError` clause.
* Python's float division `downloaded / file_size` followed by
  `int(... * 100)` is modelled as exact integer floor division
  (`downloaded * 100 / file_size`); division by zero (declared size 0) is
  modelled as `none` / a raised `"division by zero"` error, exactly as
  Python raises `ZeroDivisionError`.
* Python's `f"{x:.2f}"` / `f"{x:.1f}"` float formatting is modelled by
  exact rational rounding to 2 (resp. 1) decimal places; no claim depends
  on the rounded digits themselves.
* `logger.*` calls and local file-handle opens are not user-visible and
  are not modelled.
* The `St` state records the ordered user-visible output (`reply_text`
  messages and successful `edit_text` edits), the number of `edit_text`
  attempts, whether the temporary file was created and how many times it
  was unlinked, and how many `bot.get_file` / `get_drive_service` calls
  were made.  The ghost fields `dlPushes` / `upPushes` record the integer
  percentage of each pushed progress update; they mirror the assignments
  `last_progress_update = progress` / `last_upload_progress = progress`
  in the source and exist only to state the progress-cadence claims.
-/

/-- A Telegram document attachment: `file_name` (may be absent) and the
declared `file_size` in bytes. -/
structure Document where
  file_name : Option String
  file_size : Nat
deriving Repr, DecidableEq

/-- The relevant part of an incoming Telegram message. -/
structure Message where
  document : Option Document
deriving Repr, DecidableEq

/-- An inbound update: the sender's identifier and the message. -/
structure IncomingUpdate where
  user_id : Int
  message : Message
deriving Repr, DecidableEq

/-- A user-visible outgoing message: a fresh `reply_text` or a successful
`edit_text` of the status message. -/
inductive OutMsg where
  | reply (text : String)
  | edit (text : String)
deriving Repr, DecidableEq

/-- A Python exception: `googleapiclient`'s `HttpError` (which the source
catches separately) or any other exception, carrying `str(e)`. -/
inductive PyErr where
  | http (msg : String)
  | other (msg : String)
deriving Repr, DecidableEq

/-- `str(e)` of an exception. -/
def PyErr.str : PyErr → String
  | .http m => m
  | .other m => m

/-- How the resumable-upload loop ends once the acknowledged progress
events are exhausted: a final response (`id` and optional `webViewLink`),
an `HttpError`, or any other exception raised by `next_chunk`. -/
inductive UpEnd where
  | done (fid : String) (link : Option String)
  | httpError (msg : String)
  | raiseErr (msg : String)
deriving Repr, DecidableEq

/-- The collaborator script for one `handle_file` run. -/
structure World where
  /-- `some e`: `bot.get_file` raises an exception with text `e`. -/
  getFileErr : Option String
  /-- sizes of the chunks yielded by `telegram_file.download_chunk`. -/
  chunks : List Nat
  /-- `some e`: the chunk iterator raises after yielding `chunks`. -/
  dlErr : Option String
  /-- behaviour of the n-th `edit_text` call (0-based): `some e` raises. -/
  editErr : Nat → Option String
  /-- `some e`: `get_drive_service` raises. -/
  getDriveErr : Option String
  /-- intermediate upload acknowledgments: each is the provider progress
  fraction `num/den` reported by `status.progress()`. -/
  upAcks : List (Nat × Nat)
  /-- how the upload loop terminates after `upAcks`. -/
  upEnd : UpEnd

/-- Observable state of one `handle_file` run. -/
structure St where
  /-- ordered user-visible output. -/
  out : List OutMsg
  /-- number of `edit_text` calls attempted so far. -/
  editCalls : Nat
  /-- whether `tempfile.NamedTemporaryFile` was executed. -/
  tempCreated : Bool
  /-- number of `os.unlink(temp_file_path)` executions. -/
  tempDeleted : Nat
  /-- number of `bot.get_file` calls. -/
  getFileCalls : Nat
  /-- number of `get_drive_service` calls (every storage-provider
  interaction in `handle_file` begins with one). -/
  driveCalls : Nat
  /-- ghost: percentages pushed during the download phase. -/
  dlPushes : List Nat
  /-- ghost: percentages pushed during the upload phase. -/
  upPushes : List Nat
deriving Repr, DecidableEq

/-- The initial state. -/
def St.init : St :=
  { out := [], editCalls := 0, tempCreated := false, tempDeleted := 0,
    getFileCalls := 0, driveCalls := 0, dlPushes := [], upPushes := [] }

/-- Terminal outcome of one `handle_file` run. -/
inductive Outcome where
  | denied
  | noDocument
  | tooLarge
  | success (fid : String) (link : Option String)
  | uploadFailed (msg : String)
  | unexpected (msg : String)
deriving Repr, DecidableEq

/-- Models Python `f"{num/den:.2f}"`: `num/den` rounded (half up) to two
decimal places.  (CPython rounds the binary float half-to-even; the
difference is irrelevant to every claim, which never inspects these
digits.) -/
def formatFixed2 (num den : Nat) : String :=
  let scaled := (num * 200 + den) / (2 * den)
  let ip := scaled / 100
  let fp := scaled % 100
  let fpStr := if fp < 10 then "0" ++ toString fp else toString fp
  toString ip ++ "." ++ fpStr

/-- Models Python `f"{num/den:.1f}"`: `num/den` rounded (half up) to one
decimal place. -/
def formatFixed1 (num den : Nat) : String :=
  let scaled := (num * 20 + den) / (2 * den)
  toString (scaled / 10) ++ "." ++ toString (scaled % 10)

/-- `update.message.reply_text(text)`: appends a user-visible reply.
(Replies are modelled as always succeeding; the claims only exercise
failures of `edit_text`, `get_file`, the chunk iterator and the storage
provider.) -/
def replyText (s : St) (text : String) : St :=
  { s with out := s.out ++ [OutMsg.reply text] }

/-- `status_message.edit_text(text)`: the n-th edit call either raises
(per the `World` script) or appends a user-visible edit.  Returns the new
state and `some e` when the call raised. -/
def editText (w : World) (s : St) (text : String) : St × Option String :=
  match w.editErr s.editCalls with
  | some e => ({ s with editCalls := s.editCalls + 1 }, some e)
  | none =>
    ({ s with editCalls := s.editCalls + 1, out := s.out ++ [OutMsg.edit text] }, none)

/-- `if os.path.exists(temp_file_path): os.unlink(temp_file_path)` —
the temp path exists iff it was created and not yet unlinked. -/
def cleanupTemp (s : St) : St :=
  if s.tempCreated && s.tempDeleted == 0 then
    { s with tempDeleted := s.tempDeleted + 1 }
  else s

namespace Mobile

/-- `check_authorization` of `mobile_friendly_bot.py` (lines 58-66):
returns the boolean result and the replies it emits (the single
rejection notice in the denied case). -/
def check_authorization (authorized_users : List Int) (user_id : Int) :
    Bool × List OutMsg :=
  if authorized_users.isEmpty then (true, [])
  else if authorized_users.contains user_id then (true, [])
  else (false, [OutMsg.reply "❌ You are not authorized to use this bot."])

/-- `create_progress_bar` (lines 112-115).  `int(width * progress / 100)`
(Python float division then truncation) is modelled as exact floor
division. -/
def create_progress_bar (progress : Nat) (width : Nat) : String :=
  let filled := width * progress / 100
  let bar := String.mk (List.replicate filled '█' ++ List.replicate (width - filled) '░')
  "[" ++ bar ++ "] " ++ toString progress ++ "%"

/-- `format_file_size` (lines 117-125). -/
def format_file_size (size_bytes : Nat) : String :=
  if size_bytes ≥ 1024 ^ 3 then formatFixed2 size_bytes (1024 ^ 3) ++ "GB"
  else if size_bytes ≥ 1024 ^ 2 then formatFixed2 size_bytes (1024 ^ 2) ++ "MB"
  else if size_bytes ≥ 1024 then formatFixed2 size_bytes 1024 ++ "KB"
  else toString size_bytes ++ "B"

/-- Welcome text of `start_command` (lines 71-77). -/
def startText : String :=
  "🚀 **Welcome to Telegram to Google Drive Bot!**\n\n📁 Send me any file and I\x27ll upload it to your Google Drive\n💾 I can handle files up to 6GB in size\n📊 You\x27ll see progress updates during upload\n\nUse /help to see all available commands."

/-- `start_command` (lines 68-77): authorization gate, then the welcome
reply.  Returns the emitted messages. -/
def start_command (authorized_users : List Int) (user_id : Int) : List OutMsg :=
  let (ok, ms) := check_authorization authorized_users user_id
  if ok then ms ++ [OutMsg.reply startText] else ms

/-- Help text of `help_command` (lines 82-89). -/
def helpText : String :=
  "📖 **Available Commands:**\n\n🏁 /start - Start the bot\n❓ /help - Show this help message\n📊 /status - Check bot and Drive status\n\n📤 **To upload files:**\nJust send me any file and I\x27ll upload it to Google Drive automatically!"

/-- `help_command` (lines 79-89). -/
def help_command (authorized_users : List Int) (user_id : Int) : List OutMsg :=
  let (ok, ms) := check_authorization authorized_users user_id
  if ok then ms ++ [OutMsg.reply helpText] else ms

/-- `status_command` (lines 91-110).  The Drive quota interaction is
scripted: `quota = .ok (usage, limit)` models a successful
`about().get(fields="storageQuota")` call, `.error e` models any
exception raised while contacting Drive. -/
def status_command (authorized_users : List Int) (user_id : Int)
    (quota : Except String (Nat × Nat)) : List OutMsg :=
  let (ok, ms) := check_authorization authorized_users user_id
  if !ok then ms
  else
    let base := "🤖 **Bot Status Report:**\n\n" ++ "✅ Bot is running smoothly\n"
    let body :=
      match quota with
      | .error e => base ++ "❌ Google Drive connection error:\n`" ++ e ++ "`"
      | .ok (usage, lim) =>
        let withUsed := base ++ "✅ Google Drive connected successfully\n"
          ++ "💾 Storage used: " ++ formatFixed2 usage (1024 ^ 3) ++ "GB"
        if lim > 0 then
          withUsed ++ " of " ++ formatFixed2 lim (1024 ^ 3) ++ "GB"
            ++ " (" ++ formatFixed1 (usage * 100) lim ++ "%)"
        else withUsed
    ms ++ [OutMsg.reply body]

/-- Reply of `text_handler` (lines 253-258). -/
def textHandlerText : String :=
  "👋 Hello! I\x27m ready to help you upload files to Google Drive.\n\n📤 **To upload a file:**\nSimply send me any document, video, photo, or file!\n\n❓ **Need help?** Use /help to see all commands."

/-- `text_handler` (lines 250-258). -/
def text_handler (authorized_users : List Int) (user_id : Int) : List OutMsg :=
  let (ok, ms) := check_authorization authorized_users user_id
  if ok then ms ++ [OutMsg.reply textHandlerText] else ms

/-- The "file too large" reply (lines 139-145). -/
def tooLargeMsg (file_name : String) (file_size : Nat) : String :=
  "❌ File too large!\n\n📁 File: " ++ file_name ++ "\n📏 Size: "
    ++ format_file_size file_size
    ++ "\n🚫 Maximum allowed: 6GB\n\nPlease send a smaller file."

/-- The "File Received!" reply (lines 147-152). -/
def receivedMsg (file_name : String) (file_size : Nat) : String :=
  "📥 **File Received!**\n\n📁 Name: `" ++ file_name ++ "`\n📏 Size: "
    ++ format_file_size file_size ++ "\n\n⏳ Starting download from Telegram..."

/-- The periodic download status edit (lines 169-174). -/
def dlMsg (progress downloaded file_size : Nat) : String :=
  "📥 **Downloading from Telegram**\n\n" ++ create_progress_bar progress 20
    ++ "\n\n📊 Progress: " ++ format_file_size downloaded ++ " / "
    ++ format_file_size file_size
    ++ "\n⚡ Status: " ++ toString progress ++ "% complete"

/-- The "Download Complete!" edit (lines 176-180). -/
def dlCompleteMsg (file_name : String) : String :=
  "✅ **Download Complete!**\n\n☁️ Starting upload to Google Drive...\n📁 File: "
    ++ file_name

/-- The periodic upload status edit (lines 209-215). -/
def upMsg (progress uploaded file_size : Nat) (file_name : String) : String :=
  "☁️ **Uploading to Google Drive**\n\n" ++ create_progress_bar progress 20
    ++ "\n\n📊 Progress: " ++ format_file_size uploaded ++ " / "
    ++ format_file_size file_size
    ++ "\n⚡ Status: " ++ toString progress ++ "% complete\n📁 File: " ++ file_name

/-- The final success edit (lines 219-226). -/
def successMsg (file_name : String) (file_size : Nat) (fid : String)
    (link : Option String) : String :=
  "🎉 **Upload Successful!**\n\n📁 **File:** `" ++ file_name
    ++ "`\n📏 **Size:** " ++ format_file_size file_size
    ++ "\n🆔 **Drive ID:** `" ++ fid
    ++ "`\n\n🔗 **[Open in Google Drive](" ++ link.getD "Link not available"
    ++ ")**\n\n✅ Your file is now safely stored in Google Drive!"

/-- The upload-failure edit of the `except HttpError` clause
(lines 229-234). -/
def uploadFailMsg (file_name errmsg : String) : String :=
  "❌ **Google Drive Upload Failed**\n\n📁 File: " ++ file_name
    ++ "\n🚫 Error: " ++ errmsg ++ "\n\nPlease try again or contact support."

/-- The generic reply of the outer `except Exception` clause
(lines 243-248). -/
def genericErrMsg (file_name errmsg : String) : String :=
  "❌ **Error Processing File**\n\n📁 File: " ++ file_name
    ++ "\n🚫 Error: " ++ errmsg
    ++ "\n\nPlease try again or send a different file."

/-- `progress = min(int((downloaded_size / file_size) * 100), 100)`
(line 165).  Python raises `ZeroDivisionError` when `file_size == 0`
(modelled as `none`); otherwise the float computation is modelled as
exact floor division. -/
def downloadProgress (downloaded file_size : Nat) : Option Nat :=
  if file_size = 0 then none
  else some (min (downloaded * 100 / file_size) 100)

/-- The download loop (lines 161-175): consume the chunk sizes one by
one, accumulating `downloaded_size` and `last_progress_update` (an `Int`,
initially `-1`), pushing a status edit exactly when
`progress - last_progress_update >= 3`.  After the chunks, the iterator
either finishes or raises `w.dlErr`.  An error result carries the state
at the raise together with the exception text. -/
def dlLoop (w : World) (file_size : Nat) :
    List Nat → Nat → Int → St → Except (St × String) St
  | [], _, _, s =>
    match w.dlErr with
    | some e => .error (s, e)
    | none => .ok s
  | c :: rest, downloaded, last, s =>
    let downloaded := downloaded + c
    match downloadProgress downloaded file_size with
    | none => .error (s, "division by zero")
    | some progress =>
      if (progress : Int) - last ≥ 3 then
        match editText w s (dlMsg progress downloaded file_size) with
        | (s, some e) => .error (s, e)
        | (s, none) =>
          dlLoop w file_size rest downloaded (progress : Int)
            { s with dlPushes := s.dlPushes ++ [progress] }
      else
        dlLoop w file_size rest downloaded last s

/-- The resumable upload loop (lines 201-216): each acknowledgment with
`status` truthy reports the fraction `num/den`; the source computes
`progress = int(status.progress() * 100)` and
`uploaded_size = int(file_size * status.progress())` (modelled as exact
floor division) and pushes a status edit exactly when
`progress - last_upload_progress >= 5`.  After the acknowledgments the
loop receives the final response, an `HttpError`, or another
exception. -/
def upLoop (w : World) (file_size : Nat) (file_name : String) :
    List (Nat × Nat) → Int → St → Except (St × PyErr) (St × String × Option String)
  | [], _, s =>
    match w.upEnd with
    | .done fid link => .ok (s, fid, link)
    | .httpError e => .error (s, .http e)
    | .raiseErr e => .error (s, .other e)
  | (num, den) :: rest, last, s =>
    let progress := num * 100 / den
    let uploaded := file_size * num / den
    if (progress : Int) - last ≥ 5 then
      match editText w s (upMsg progress uploaded file_size file_name) with
      | (s, some e) => .error (s, PyErr.other e)
      | (s, none) =>
        upLoop w file_size file_name rest (progress : Int)
          { s with upPushes := s.upPushes ++ [progress] }
    else
      upLoop w file_size file_name rest last s

/-- Body of the inner `try` (lines 181-226): `get_drive_service` (any
exception it raises is not an `HttpError`), the media/request
construction, the upload loop, and the final success edit. -/
def uploadPhase (w : World) (file_size : Nat) (file_name : String) (s : St) :
    Except (St × PyErr) (St × Outcome) :=
  let s := { s with driveCalls := s.driveCalls + 1 }
  match w.getDriveErr with
  | some e => .error (s, .other e)
  | none =>
    match upLoop w file_size file_name w.upAcks (-1) s with
    | .error (s, e) => .error (s, e)
    | .ok (s, fid, link) =>
      match editText w s (successMsg file_name file_size fid link) with
      | (s, some e) => .error (s, PyErr.other e)
      | (s, none) => .ok (s, Outcome.success fid link)

/-- The inner `try`/`except HttpError`/`finally` (lines 181-239): an
`HttpError` is converted into the upload-failed edit (which may itself
raise); every other exception propagates; the `finally` clause removes
the temporary file in all cases, before the exception (if any) continues
to the outer handler. -/
def uploadSection (w : World) (file_size : Nat) (file_name : String) (s : St) :
    Except (St × PyErr) (St × Outcome) :=
  let r : Except (St × PyErr) (St × Outcome) :=
    match uploadPhase w file_size file_name s with
    | .ok (s, o) => .ok (s, o)
    | .error (s, .http e) =>
      match editText w s (uploadFailMsg file_name e) with
      | (s, some e2) => .error (s, PyErr.other e2)
      | (s, none) => .ok (s, Outcome.uploadFailed e)
    | .error (s, .other e) => .error (s, PyErr.other e)
  match r with
  | .ok (s, o) => .ok (cleanupTemp s, o)
  | .error (s, e) => .error (cleanupTemp s, e)

/-- Body of the outer `try` (lines 153-226): the "Preparing
download..." status reply, `bot.get_file`, temporary-file creation, the
download loop, the "Download Complete!" edit, and the upload section. -/
def tryBody (w : World) (file_name : String) (file_size : Nat) (s : St) :
    Except (St × PyErr) (St × Outcome) :=
  let s := replyText s "📥 Preparing download..."
  let s := { s with getFileCalls := s.getFileCalls + 1 }
  match w.getFileErr with
  | some e => .error (s, .other e)
  | none =>
    let s := { s with tempCreated := true }
    match dlLoop w file_size w.chunks 0 (-1) s with
    | .error (s, e) => .error (s, .other e)
    | .ok s =>
      match editText w s (dlCompleteMsg file_name) with
      | (s, some e) => .error (s, PyErr.other e)
      | (s, none) => uploadSection w file_size file_name s

/-- `handle_file` of `mobile_friendly_bot.py` (lines 127-248):
authorization gate, document check, size guard, "File Received!" reply,
then the outer `try` (`tryBody`); the outer `except Exception` converts
any escaped exception into the generic error reply (and performs no
cleanup of its own). -/
def handle_file (authorized_users : List Int) (upd : IncomingUpdate)
    (w : World) : St × Outcome :=
  let (ok, ms) := check_authorization authorized_users upd.user_id
  let s : St := { St.init with out := ms }
  if !ok then (s, .denied)
  else
    match upd.message.document with
    | none => (replyText s "❌ Please send a file document.", .noDocument)
    | some doc =>
      let file_name := doc.file_name.getD "unnamed_file"
      let file_size := doc.file_size
      let max_size := 6 * 1024 * 1024 * 1024
      if file_size > max_size then
        (replyText s (tooLargeMsg file_name file_size), .tooLarge)
      else
        let s := replyText s (receivedMsg file_name file_size)
        match tryBody w file_name file_size s with
        | .ok (s, o) => (s, o)
        | .error (s, e) =>
          (replyText s (genericErrMsg file_name e.str), .unexpected e.str)

end Mobile

namespace Render

/-!
`render_compatible_bot.py` is a near-duplicate of
`mobile_friendly_bot.py`.  Its only differences inside the embedded
functions are: (a) an extra `with open(temp_file_path, "rb") as f:`
wrapper around the upload (line 252) — it opens a file that exists at
that point and never fails or affects anything user-visible, so it is
not a modelled event; and (b) the `finally` clause logs the cleanup
inside the `os.path.exists` guard instead of after it — logging is not
user-visible.  Everything observable is embedded below from the Render
source line by line.
-/

/-- `check_authorization` of `render_compatible_bot.py` (lines 75-87). -/
def check_authorization (authorized_users : List Int) (user_id : Int) :
    Bool × List OutMsg :=
  if authorized_users.isEmpty then (true, [])
  else if authorized_users.contains user_id then (true, [])
  else (false, [OutMsg.reply "❌ You are not authorized to use this bot."])

/-- `create_progress_bar` (lines 146-150). -/
def create_progress_bar (progress : Nat) (width : Nat) : String :=
  let filled := width * progress / 100
  let bar := String.mk (List.replicate filled '█' ++ List.replicate (width - filled) '░')
  "[" ++ bar ++ "] " ++ toString progress ++ "%"

/-- `format_file_size` (lines 152-161). -/
def format_file_size (size_bytes : Nat) : String :=
  if size_bytes ≥ 1024 ^ 3 then formatFixed2 size_bytes (1024 ^ 3) ++ "GB"
  else if size_bytes ≥ 1024 ^ 2 then formatFixed2 size_bytes (1024 ^ 2) ++ "MB"
  else if size_bytes ≥ 1024 then formatFixed2 size_bytes 1024 ++ "KB"
  else toString size_bytes ++ "B"

/-- Welcome text of `start_command` (lines 95-101). -/
def startText : String :=
  "🚀 **Welcome to Telegram to Google Drive Bot!**\n\n📁 Send me any file and I\x27ll upload it to your Google Drive\n💾 I can handle files up to 6GB in size\n📊 You\x27ll see progress updates during upload\n\nUse /help to see all available commands."

/-- `start_command` (lines 90-101). -/
def start_command (authorized_users : List Int) (user_id : Int) : List OutMsg :=
  let (ok, ms) := check_authorization authorized_users user_id
  if ok then ms ++ [OutMsg.reply startText] else ms

/-- Help text of `help_command` (lines 108-115). -/
def helpText : String :=
  "📖 **Available Commands:**\n\n🏁 /start - Start the bot\n❓ /help - Show this help message\n📊 /status - Check bot and Drive status\n\n📤 **To upload files:**\nJust send me any file and I\x27ll upload it to Google Drive automatically!"

/-- `help_command` (lines 103-115). -/
def help_command (authorized_users : List Int) (user_id : Int) : List OutMsg :=
  let (ok, ms) := check_authorization authorized_users user_id
  if ok then ms ++ [OutMsg.reply helpText] else ms

/-- `status_command` (lines 117-143). -/
def status_command (authorized_users : List Int) (user_id : Int)
    (quota : Except String (Nat × Nat)) : List OutMsg :=
  let (ok, ms) := check_authorization authorized_users user_id
  if !ok then ms
  else
    let base := "🤖 **Bot Status Report:**\n\n" ++ "✅ Bot is running smoothly\n"
    let body :=
      match quota with
      | .error e => base ++ "❌ Google Drive connection error:\n`" ++ e ++ "`"
      | .ok (usage, lim) =>
        let withUsed := base ++ "✅ Google Drive connected successfully\n"
          ++ "💾 Storage used: " ++ formatFixed2 usage (1024 ^ 3) ++ "GB"
        if lim > 0 then
          withUsed ++ " of " ++ formatFixed2 lim (1024 ^ 3) ++ "GB"
            ++ " (" ++ formatFixed1 (usage * 100) lim ++ "%)"
        else withUsed
    ms ++ [OutMsg.reply body]

/-- Reply of `text_handler` (lines 336-341). -/
def textHandlerText : String :=
  "👋 Hello! I\x27m ready to help you upload files to Google Drive.\n\n📤 **To upload a file:**\nSimply send me any document, video, photo, or file!\n\n❓ **Need help?** Use /help to see all commands."

/-- `text_handler` (lines 331-341). -/
def text_handler (authorized_users : List Int) (user_id : Int) : List OutMsg :=
  let (ok, ms) := check_authorization authorized_users user_id
  if ok then ms ++ [OutMsg.reply textHandlerText] else ms

/-- The "file too large" reply (lines 182-188). -/
def tooLargeMsg (file_name : String) (file_size : Nat) : String :=
  "❌ File too large!\n\n📁 File: " ++ file_name ++ "\n📏 Size: "
    ++ format_file_size file_size
    ++ "\n🚫 Maximum allowed: 6GB\n\nPlease send a smaller file."

/-- The "File Received!" reply (lines 192-197). -/
def receivedMsg (file_name : String) (file_size : Nat) : String :=
  "📥 **File Received!**\n\n📁 Name: `" ++ file_name ++ "`\n📏 Size: "
    ++ format_file_size file_size ++ "\n\n⏳ Starting download from Telegram..."

/-- The periodic download status edit (lines 224-229). -/
def dlMsg (progress downloaded file_size : Nat) : String :=
  "📥 **Downloading from Telegram**\n\n" ++ create_progress_bar progress 20
    ++ "\n\n📊 Progress: " ++ format_file_size downloaded ++ " / "
    ++ format_file_size file_size
    ++ "\n⚡ Status: " ++ toString progress ++ "% complete"

/-- The "Download Complete!" edit (lines 233-237). -/
def dlCompleteMsg (file_name : String) : String :=
  "✅ **Download Complete!**\n\n☁️ Starting upload to Google Drive...\n📁 File: "
    ++ file_name

/-- The periodic upload status edit (lines 282-288). -/
def upMsg (progress uploaded file_size : Nat) (file_name : String) : String :=
  "☁️ **Uploading to Google Drive**\n\n" ++ create_progress_bar progress 20
    ++ "\n\n📊 Progress: " ++ format_file_size uploaded ++ " / "
    ++ format_file_size file_size
    ++ "\n⚡ Status: " ++ toString progress ++ "% complete\n📁 File: " ++ file_name

/-- The final success edit (lines 296-303). -/
def successMsg (file_name : String) (file_size : Nat) (fid : String)
    (link : Option String) : String :=
  "🎉 **Upload Successful!**\n\n📁 **File:** `" ++ file_name
    ++ "`\n📏 **Size:** " ++ format_file_size file_size
    ++ "\n🆔 **Drive ID:** `" ++ fid
    ++ "`\n\n🔗 **[Open in Google Drive](" ++ link.getD "Link not available"
    ++ ")**\n\n✅ Your file is now safely stored in Google Drive!"

/-- The upload-failure edit of the `except HttpError` clause
(lines 305-313). -/
def uploadFailMsg (file_name errmsg : String) : String :=
  "❌ **Google Drive Upload Failed**\n\n📁 File: " ++ file_name
    ++ "\n🚫 Error: " ++ errmsg ++ "\n\nPlease try again or contact support."

/-- The generic reply of the outer `except Exception` clause
(lines 321-329). -/
def genericErrMsg (file_name errmsg : String) : String :=
  "❌ **Error Processing File**\n\n📁 File: " ++ file_name
    ++ "\n🚫 Error: " ++ errmsg
    ++ "\n\nPlease try again or send a different file."

/-- `progress = min(int((downloaded_size / file_size) * 100), 100)`
(line 217), as in the Mobile variant. -/
def downloadProgress (downloaded file_size : Nat) : Option Nat :=
  if file_size = 0 then none
  else some (min (downloaded * 100 / file_size) 100)

/-- The download loop (lines 213-230). -/
def dlLoop (w : World) (file_size : Nat) :
    List Nat → Nat → Int → St → Except (St × String) St
  | [], _, _, s =>
    match w.dlErr with
    | some e => .error (s, e)
    | none => .ok s
  | c :: rest, downloaded, last, s =>
    let downloaded := downloaded + c
    match downloadProgress downloaded file_size with
    | none => .error (s, "division by zero")
    | some progress =>
      if (progress : Int) - last ≥ 3 then
        match editText w s (dlMsg progress downloaded file_size) with
        | (s, some e) => .error (s, e)
        | (s, none) =>
          dlLoop w file_size rest downloaded (progress : Int)
            { s with dlPushes := s.dlPushes ++ [progress] }
      else
        dlLoop w file_size rest downloaded last s

/-- The resumable upload loop (lines 270-289). -/
def upLoop (w : World) (file_size : Nat) (file_name : String) :
    List (Nat × Nat) → Int → St → Except (St × PyErr) (St × String × Option String)
  | [], _, s =>
    match w.upEnd with
    | .done fid link => .ok (s, fid, link)
    | .httpError e => .error (s, .http e)
    | .raiseErr e => .error (s, .other e)
  | (num, den) :: rest, last, s =>
    let progress := num * 100 / den
    let uploaded := file_size * num / den
    if (progress : Int) - last ≥ 5 then
      match editText w s (upMsg progress uploaded file_size file_name) with
      | (s, some e) => .error (s, PyErr.other e)
      | (s, none) =>
        upLoop w file_size file_name rest (progress : Int)
          { s with upPushes := s.upPushes ++ [progress] }
    else
      upLoop w file_size file_name rest last s

/-- Body of the inner `try` (lines 240-303), including the unmodelled
no-op `with open(temp_file_path, "rb")` wrapper (line 252). -/
def uploadPhase (w : World) (file_size : Nat) (file_name : String) (s : St) :
    Except (St × PyErr) (St × Outcome) :=
  let s := { s with driveCalls := s.driveCalls + 1 }
  match w.getDriveErr with
  | some e => .error (s, .other e)
  | none =>
    match upLoop w file_size file_name w.upAcks (-1) s with
    | .error (s, e) => .error (s, e)
    | .ok (s, fid, link) =>
      match editText w s (successMsg file_name file_size fid link) with
      | (s, some e) => .error (s, PyErr.other e)
      | (s, none) => .ok (s, Outcome.success fid link)

/-- The inner `try`/`except HttpError`/`finally` (lines 240-319). -/
def uploadSection (w : World) (file_size : Nat) (file_name : String) (s : St) :
    Except (St × PyErr) (St × Outcome) :=
  let r : Except (St × PyErr) (St × Outcome) :=
    match uploadPhase w file_size file_name s with
    | .ok (s, o) => .ok (s, o)
    | .error (s, .http e) =>
      match editText w s (uploadFailMsg file_name e) with
      | (s, some e2) => .error (s, PyErr.other e2)
      | (s, none) => .ok (s, Outcome.uploadFailed e)
    | .error (s, .other e) => .error (s, PyErr.other e)
  match r with
  | .ok (s, o) => .ok (cleanupTemp s, o)
  | .error (s, e) => .error (cleanupTemp s, e)

/-- Body of the outer `try` (lines 200-303). -/
def tryBody (w : World) (file_name : String) (file_size : Nat) (s : St) :
    Except (St × PyErr) (St × Outcome) :=
  let s := replyText s "📥 Preparing download..."
  let s := { s with getFileCalls := s.getFileCalls + 1 }
  match w.getFileErr with
  | some e => .error (s, .other e)
  | none =>
    let s := { s with tempCreated := true }
    match dlLoop w file_size w.chunks 0 (-1) s with
    | .error (s, e) => .error (s, .other e)
    | .ok s =>
      match editText w s (dlCompleteMsg file_name) with
      | (s, some e) => .error (s, PyErr.other e)
      | (s, none) => uploadSection w file_size file_name s

/-- `handle_file` of `render_compatible_bot.py` (lines 164-329). -/
def handle_file (authorized_users : List Int) (upd : IncomingUpdate)
    (w : World) : St × Outcome :=
  let (ok, ms) := check_authorization authorized_users upd.user_id
  let s : St := { St.init with out := ms }
  if !ok then (s, .denied)
  else
    match upd.message.document with
    | none => (replyText s "❌ Please send a file document.", .noDocument)
    | some doc =>
      let file_name := doc.file_name.getD "unnamed_file"
      let file_size := doc.file_size
      let max_size := 6 * 1024 * 1024 * 1024
      if file_size > max_size then
        (replyText s (tooLargeMsg file_name file_size), .tooLarge)
      else
        let s := replyText s (receivedMsg file_name file_size)
        match tryBody w file_name file_size s with
        | .ok (s, o) => (s, o)
        | .error (s, e) =>
          (replyText s (genericErrMsg file_name e.str), .unexpected e.str)

end Render

/-!
Helper lemmas: the two variants' embedded functions agree (the Python
sources are near-duplicates; the only differences — hosting strategy,
an extra no-op file open and a log line — are not observable).
-/

/-- The two `check_authorization` functions are identical. -/
theorem check_authorization_eq :
    Render.check_authorization = Mobile.check_authorization := rfl

/-- The two `create_progress_bar` functions are identical. -/
theorem create_progress_bar_eq :
    Render.create_progress_bar = Mobile.create_progress_bar := rfl

/-- The two `format_file_size` functions are identical. -/
theorem format_file_size_eq :
    Render.format_file_size = Mobile.format_file_size := rfl

theorem start_command_eq : Render.start_command = Mobile.start_command := rfl

theorem help_command_eq : Render.help_command = Mobile.help_command := rfl

theorem status_command_eq : Render.status_command = Mobile.status_command := rfl

theorem text_handler_eq : Render.text_handler = Mobile.text_handler := rfl

theorem downloadProgress_eq : Render.downloadProgress = Mobile.downloadProgress := rfl

theorem dlMsg_eq : Render.dlMsg = Mobile.dlMsg := rfl

theorem upMsg_eq : Render.upMsg = Mobile.upMsg := rfl

theorem tooLargeMsg_eq : Render.tooLargeMsg = Mobile.tooLargeMsg := rfl

theorem receivedMsg_eq : Render.receivedMsg = Mobile.receivedMsg := rfl

theorem dlCompleteMsg_eq : Render.dlCompleteMsg = Mobile.dlCompleteMsg := rfl

theorem successMsg_eq : Render.successMsg = Mobile.successMsg := rfl

theorem uploadFailMsg_eq : Render.uploadFailMsg = Mobile.uploadFailMsg := rfl

theorem genericErrMsg_eq : Render.genericErrMsg = Mobile.genericErrMsg := rfl

/-- The two download loops agree on every input. -/
theorem dlLoop_eq (w : World) (fs : Nat) :
    ∀ (chunks : List Nat) (d : Nat) (last : Int) (s : St),
      Render.dlLoop w fs chunks d last s = Mobile.dlLoop w fs chunks d last s
  | [], _, _, _ => rfl
  | c :: rest, d, last, s => by
    simp only [Render.dlLoop, Mobile.dlLoop, downloadProgress_eq, dlMsg_eq]
    cases Mobile.downloadProgress (d + c) fs with
    | none => rfl
    | some progress =>
      simp only
      by_cases hc : (progress : Int) - last ≥ 3
      · rw [if_pos hc, if_pos hc]
        rcases he : editText w s (Mobile.dlMsg progress (d + c) fs) with ⟨s', oe⟩
        cases oe with
        | none => exact dlLoop_eq w fs rest (d + c) (progress : Int) _
        | some e => rfl
      · rw [if_neg hc, if_neg hc]
        exact dlLoop_eq w fs rest (d + c) last s

/-- The two upload loops agree on every input. -/
theorem upLoop_eq (w : World) (fs : Nat) (fn : String) :
    ∀ (acks : List (Nat × Nat)) (last : Int) (s : St),
      Render.upLoop w fs fn acks last s = Mobile.upLoop w fs fn acks last s
  | [], _, _ => rfl
  | (num, den) :: rest, last, s => by
    simp only [Render.upLoop, Mobile.upLoop, upMsg_eq]
    by_cases hc : ((num * 100 / den : Nat) : Int) - last ≥ 5
    · rw [if_pos hc, if_pos hc]
      rcases he : editText w s (Mobile.upMsg (num * 100 / den) (fs * num / den) fs fn) with ⟨s', oe⟩
      cases oe with
      | none => exact upLoop_eq w fs fn rest _ _
      | some e => rfl
    · rw [if_neg hc, if_neg hc]
      exact upLoop_eq w fs fn rest last s

/-- The two upload phases agree. -/
theorem uploadPhase_eq (w : World) (fs : Nat) (fn : String) (s : St) :
    Render.uploadPhase w fs fn s = Mobile.uploadPhase w fs fn s := by
  simp only [Render.uploadPhase, Mobile.uploadPhase, upLoop_eq]
  rfl

/-- The two upload sections (try/except HttpError/finally) agree. -/
theorem uploadSection_eq (w : World) (fs : Nat) (fn : String) (s : St) :
    Render.uploadSection w fs fn s = Mobile.uploadSection w fs fn s := by
  simp only [Render.uploadSection, Mobile.uploadSection, uploadPhase_eq,
    uploadFailMsg_eq]

/-- The two outer-try bodies agree. -/
theorem tryBody_eq (w : World) (fn : String) (fs : Nat) (s : St) :
    Render.tryBody w fn fs s = Mobile.tryBody w fn fs s := by
  simp only [Render.tryBody, Mobile.tryBody, dlCompleteMsg_eq, dlLoop_eq,
    uploadSection_eq]

/-- The two `handle_file` pipelines agree on every input: same
user-visible messages, same resource effects, same outcome. -/
theorem handle_file_eq (users : List Int) (upd : IncomingUpdate) (w : World) :
    Render.handle_file users upd w = Mobile.handle_file users upd w := by
  simp only [Render.handle_file, Mobile.handle_file, check_authorization_eq,
    tooLargeMsg_eq, receivedMsg_eq, genericErrMsg_eq, tryBody_eq]

/-- `check_authorization` returns either `(true, [])` (allowed, no
output) or `(false, [rejection notice])`. -/
theorem check_authorization_cases (users : List Int) (uid : Int) :
    Mobile.check_authorization users uid = (true, []) ∨
    Mobile.check_authorization users uid =
      (false, [OutMsg.reply "❌ You are not authorized to use this bot."]) := by
  unfold Mobile.check_authorization
  split_ifs <;> simp

/-- If the boolean result is `true`, the whole result is `(true, [])`. -/
theorem check_authorization_true {users : List Int} {uid : Int}
    (h : (Mobile.check_authorization users uid).1 = true) :
    Mobile.check_authorization users uid = (true, []) := by
  rcases check_authorization_cases users uid with h' | h'
  · exact h'
  · rw [h'] at h; simp at h

/-- With a non-empty allow-list and an absent identifier, the gate
denies and emits exactly the rejection notice. -/
theorem check_authorization_denied {users : List Int} {uid : Int}
    (hne : users ≠ []) (habs : uid ∉ users) :
    Mobile.check_authorization users uid =
      (false, [OutMsg.reply "❌ You are not authorized to use this bot."]) := by
  unfold Mobile.check_authorization
  rw [if_neg (by simpa using hne), if_neg (by simpa using habs)]

/-- Concrete fixtures used by the counterexample and evidence
theorems. -/
def filmDoc : Document := { file_name := some "movie.mkv", file_size := 5000000 }

def filmUpd : IncomingUpdate := { user_id := 42, message := { document := some filmDoc } }

/-- A fully successful collaborator script: two 1 MiB download chunks,
two upload acknowledgments (fractions 1/2 and 1/1), then the final
response. -/
def wSuccess : World :=
  { getFileErr := none, chunks := [1048576, 1048576], dlErr := none,
    editErr := fun _ => none, getDriveErr := none,
    upAcks := [(1, 2), (1, 1)], upEnd := .done "abc123" (some "https://drive.example/abc123") }

/-- Same script but the upload ends in an `HttpError`. -/
def wHttpErr : World := { wSuccess with upEnd := .httpError "HttpError 403" }

/-- Same script but the download iterator raises after its chunks. -/
def wDlFail : World := { wSuccess with dlErr := some "Timed out" }

/-- Same script but the very first `edit_text` call raises. -/
def wEditFail : World :=
  { wSuccess with editErr := fun n => if n = 0 then some "Flood control exceeded" else none }

/-- C1: the spec's invariant — "temporary storage is deleted exactly
once on every exit path" — holds on the upload-success and
upload-HttpError paths but is violated by the code on the
download-failure path: the `finally` cleanup clause is attached only to
the inner upload `try`, so an exception raised while downloading (after
the temporary file was created) propagates to the outer handler and the
temporary file is never deleted.  The theorem evaluates both pipelines:
success deletes exactly once, HttpError deletes exactly once, download
failure creates the file and deletes it zero times (the leak), in both
source variants. -/
theorem temp_cleanup_skipped_on_download_failure :
    ((Mobile.handle_file [] filmUpd wSuccess).1.tempCreated = true ∧
      (Mobile.handle_file [] filmUpd wSuccess).1.tempDeleted = 1) ∧
    ((Mobile.handle_file [] filmUpd wHttpErr).1.tempDeleted = 1 ∧
      (Mobile.handle_file [] filmUpd wHttpErr).2 = .uploadFailed "HttpError 403") ∧
    ((Mobile.handle_file [] filmUpd wDlFail).1.tempCreated = true ∧
      (Mobile.handle_file [] filmUpd wDlFail).1.tempDeleted = 0 ∧
      (Mobile.handle_file [] filmUpd wDlFail).2 = .unexpected "Timed out") ∧
    ((Render.handle_file [] filmUpd wDlFail).1.tempCreated = true ∧
      (Render.handle_file [] filmUpd wDlFail).1.tempDeleted = 0) := by
  decide

/-- An incoming document with declared size 0. -/
def zeroSizeUpd : IncomingUpdate :=
  { user_id := 42, message := { document := some { file_name := none, file_size := 0 } } }

/-- Script delivering a single 5-byte chunk for it. -/
def wZeroSize : World := { wSuccess with chunks := [5] }

/-- C3 counterexample: a declared size of 0 DOES cause a
division-by-zero.  `downloaded_size / file_size` has no zero guard, so
the first chunk raises `ZeroDivisionError` ("division by zero"), which
the outer handler reports as a generic processing error; no progress of
100 (indeed no progress push at all, and no `edit_text` call) ever
happens. -/
theorem zero_declared_size_divides_by_zero :
    Mobile.downloadProgress 5 0 = none ∧
    (Mobile.handle_file [] zeroSizeUpd wZeroSize).2 = .unexpected "division by zero" ∧
    (Mobile.handle_file [] zeroSizeUpd wZeroSize).1.dlPushes = [] ∧
    (Mobile.handle_file [] zeroSizeUpd wZeroSize).1.editCalls = 0 ∧
    (Render.handle_file [] zeroSizeUpd wZeroSize).2 = .unexpected "division by zero" := by
  decide

/-- C3 (amended): the progress computation is total only for positive
declared sizes: for `file_size = 0` it raises a division-by-zero error
(reported through the generic error path), and for `file_size > 0` it
equals `floor(downloaded * 100 / file_size)` clamped to at most 100
(integer truncation, never exceeding 100). -/
theorem download_progress_amended (d fs : Nat) (h : 0 < fs) :
    Mobile.downloadProgress d 0 = none ∧
    Mobile.downloadProgress d fs = some (min ⌊((d : ℚ) * 100) / (fs : ℚ)⌋₊ 100) ∧
    ∀ p, Mobile.downloadProgress d fs = some p → p ≤ 100 := by
  have hfs : ¬ fs = 0 := by omega
  refine ⟨rfl, ?_, ?_⟩
  · unfold Mobile.downloadProgress
    rw [if_neg hfs]
    have hcast : ((d : ℚ) * 100) / (fs : ℚ) = ((d * 100 : ℕ) : ℚ) / ((fs : ℕ) : ℚ) := by
      push_cast; ring
    rw [hcast, Nat.floor_div_nat, Nat.floor_natCast]
  · intro p hp
    unfold Mobile.downloadProgress at hp
    rw [if_neg hfs] at hp
    simp only [Option.some.injEq] at hp
    omega

/-- Witness for the amended C3 theorem at `downloaded = 5`,
`file_size = 3`. -/
theorem download_progress_amended_witness :
    Mobile.downloadProgress 5 0 = none ∧
    Mobile.downloadProgress 5 3 = some (min ⌊((5 : ℚ) * 100) / ((3 : ℕ) : ℚ)⌋₊ 100) ∧
    ∀ p, Mobile.downloadProgress 5 3 = some p → p ≤ 100 :=
  download_progress_amended 5 3 (by decide)

/-- C6 counterexample: a failed status-update push DOES abort the
transfer.  With every collaborator operation succeeding except the very
first `edit_text` (which raises "Flood control exceeded"), the download
loop stops at its first push, nothing is downloaded further, no upload
happens, and the pipeline ends in the generic error path (leaking the
temporary file, since the abort bypasses the upload `finally`). -/
theorem status_edit_failure_aborts_transfer :
    (Mobile.handle_file [] filmUpd wEditFail).2 = .unexpected "Flood control exceeded" ∧
    (Mobile.handle_file [] filmUpd wEditFail).1.editCalls = 1 ∧
    (Mobile.handle_file [] filmUpd wEditFail).1.dlPushes = [] ∧
    (Mobile.handle_file [] filmUpd wEditFail).1.driveCalls = 0 ∧
    (Render.handle_file [] filmUpd wEditFail).2 = .unexpected "Flood control exceeded" := by
  decide

/-- C6 (amended): a failure of a status-update push aborts the
transfer: when an `edit_text` raises during the download loop (at a
push step) the loop terminates immediately with that exception, and
likewise for the upload loop; the exception then propagates to the
outer handler (demonstrated end-to-end by the counterexample run). -/
theorem status_edit_failure_aborts_loops (w : World) (size c : Nat)
    (rest : List Nat) (d : Nat) (last : Int) (s : St) (e : String)
    (fs2 : Nat) (fn : String) (num den : Nat) (urest : List (Nat × Nat))
    (ulast : Int)
    (hsize : 0 < size)
    (hedit : w.editErr s.editCalls = some e)
    (hpush : ((min ((d + c) * 100 / size) 100 : Nat) : Int) - last ≥ 3)
    (hpush2 : ((num * 100 / den : Nat) : Int) - ulast ≥ 5) :
    Mobile.dlLoop w size (c :: rest) d last s =
      .error ({ s with editCalls := s.editCalls + 1 }, e) ∧
    Mobile.upLoop w fs2 fn ((num, den) :: urest) ulast s =
      .error ({ s with editCalls := s.editCalls + 1 }, .other e) := by
  have hfs : ¬ size = 0 := by omega
  constructor
  · simp only [Mobile.dlLoop, Mobile.downloadProgress, if_neg hfs]
    rw [if_pos hpush]
    simp only [editText, hedit]
  · simp only [Mobile.upLoop]
    rw [if_pos hpush2]
    simp only [editText, hedit]

/-- Witness for the amended C6 theorem: concrete one-chunk download and
one-acknowledgment upload, first edit failing. -/
theorem status_edit_failure_aborts_loops_witness :
    Mobile.dlLoop wEditFail 5 [1] 0 (-1) St.init =
      .error ({ St.init with editCalls := 1 }, "Flood control exceeded") ∧
    Mobile.upLoop wEditFail 10 "f.bin" [(1, 2)] (-1) St.init =
      .error ({ St.init with editCalls := 1 }, .other "Flood control exceeded") :=
  status_edit_failure_aborts_loops wEditFail 5 1 [] 0 (-1) St.init
    "Flood control exceeded" 10 "f.bin" 1 2 [] (-1)
    (by decide) (by decide) (by decide) (by decide)

/-- A successful inner-upload run can only end in a success outcome. -/
theorem uploadPhase_ok_outcome {w : World} {fs : Nat} {fn : String} {s s' : St}
    {o : Outcome} (h : Mobile.uploadPhase w fs fn s = .ok (s', o)) :
    ∃ fid link, o = .success fid link := by
  unfold Mobile.uploadPhase at h
  split at h
  · simp at h
  · dsimp only at h
    split at h
    · simp at h
    · split at h
      · simp at h
      · simp only [Except.ok.injEq, Prod.mk.injEq] at h
        exact ⟨_, _, h.2.symm⟩

/-- A normally-returning upload section ends in success or
upload-failed. -/
theorem uploadSection_ok_outcome {w : World} {fs : Nat} {fn : String} {s s' : St}
    {o : Outcome} (h : Mobile.uploadSection w fs fn s = .ok (s', o)) :
    (∃ fid link, o = .success fid link) ∨ ∃ e, o = .uploadFailed e := by
  unfold Mobile.uploadSection at h
  split at h
  · next s2 o2 heq =>
    rcases uploadPhase_ok_outcome heq with ⟨fid, link, rfl⟩
    simp only [Except.ok.injEq, Prod.mk.injEq] at h
    exact Or.inl ⟨fid, link, h.2.symm⟩
  · split at h
    · simp at h
    · simp only [Except.ok.injEq, Prod.mk.injEq] at h
      exact Or.inr ⟨_, h.2.symm⟩
  · simp at h

/-- A normally-returning outer-try body ends in success or
upload-failed. -/
theorem tryBody_ok_outcome {w : World} {fn : String} {fs : Nat} {s s' : St}
    {o : Outcome} (h : Mobile.tryBody w fn fs s = .ok (s', o)) :
    (∃ fid link, o = .success fid link) ∨ ∃ e, o = .uploadFailed e := by
  unfold Mobile.tryBody at h
  dsimp only at h
  split at h
  · simp at h
  · split at h
    · simp at h
    · split at h
      · simp at h
      · exact uploadSection_ok_outcome h

/-- C2: for an authorized sender and an attached document of declared
size `sz`, with ceiling 6·1024³ bytes: if `sz` exceeds the ceiling,
`handle_file` terminates immediately with exactly the "file too large"
reply and an otherwise untouched state (no temporary storage, no
`get_file` call, no storage-provider call); if `sz` is within the
ceiling the guard does not fire (the outcome is never `tooLarge`).
Both source variants. -/
theorem size_guard_boundary (users : List Int) (uid : Int) (nm : Option String)
    (sz : Nat) (w : World)
    (hauth : (Mobile.check_authorization users uid).1 = true) :
    (sz > 6 * 1024 * 1024 * 1024 →
      Mobile.handle_file users ⟨uid, ⟨some ⟨nm, sz⟩⟩⟩ w =
        ({ St.init with
            out := [OutMsg.reply (Mobile.tooLargeMsg (nm.getD "unnamed_file") sz)] },
          .tooLarge) ∧
      Render.handle_file users ⟨uid, ⟨some ⟨nm, sz⟩⟩⟩ w =
        ({ St.init with
            out := [OutMsg.reply (Mobile.tooLargeMsg (nm.getD "unnamed_file") sz)] },
          .tooLarge)) ∧
    (sz ≤ 6 * 1024 * 1024 * 1024 →
      (Mobile.handle_file users ⟨uid, ⟨some ⟨nm, sz⟩⟩⟩ w).2 ≠ .tooLarge ∧
      (Render.handle_file users ⟨uid, ⟨some ⟨nm, sz⟩⟩⟩ w).2 ≠ .tooLarge) := by
  have hpair := check_authorization_true hauth
  constructor
  · intro hsz
    constructor
    · simp [Mobile.handle_file, hpair, hsz, replyText, St.init]
    · rw [handle_file_eq]
      simp [Mobile.handle_file, hpair, hsz, replyText, St.init]
  · intro hsz
    have hsz' : ¬ sz > 6 * 1024 * 1024 * 1024 := by omega
    have hmain : (Mobile.handle_file users ⟨uid, ⟨some ⟨nm, sz⟩⟩⟩ w).2 ≠ .tooLarge := by
      simp only [Mobile.handle_file, hpair, hsz', Bool.not_true, Bool.false_eq_true,
        if_false, if_neg hsz']
      split
      · next s2 o2 heq =>
        rcases tryBody_ok_outcome heq with ⟨fid, link, rfl⟩ | ⟨e, rfl⟩ <;> simp
      · simp
    exact ⟨hmain, by rw [handle_file_eq]; exact hmain⟩

/-- Witness for C2 at an oversized declared size (6·1024³ + 1). -/
theorem size_guard_boundary_witness :
    ((6442450945 : Nat) > 6 * 1024 * 1024 * 1024 →
      Mobile.handle_file [] ⟨0, ⟨some ⟨some "big.bin", 6442450945⟩⟩⟩ wSuccess =
        ({ St.init with
            out := [OutMsg.reply (Mobile.tooLargeMsg "big.bin" 6442450945)] },
          .tooLarge) ∧
      Render.handle_file [] ⟨0, ⟨some ⟨some "big.bin", 6442450945⟩⟩⟩ wSuccess =
        ({ St.init with
            out := [OutMsg.reply (Mobile.tooLargeMsg "big.bin" 6442450945)] },
          .tooLarge)) ∧
    ((6442450945 : Nat) ≤ 6 * 1024 * 1024 * 1024 →
      (Mobile.handle_file [] ⟨0, ⟨some ⟨some "big.bin", 6442450945⟩⟩⟩ wSuccess).2 ≠ .tooLarge ∧
      (Render.handle_file [] ⟨0, ⟨some ⟨some "big.bin", 6442450945⟩⟩⟩ wSuccess).2 ≠ .tooLarge) :=
  size_guard_boundary [] 0 (some "big.bin") 6442450945 wSuccess (by decide)

/-- C5: the authorization contract.  Empty allow-list: always allowed,
no output.  Identifier present: allowed, no output.  Non-empty list and
absent identifier: denied with exactly one rejection notice, and the
file pipeline then stops — `handle_file` emits nothing else, creates no
temporary storage and contacts neither collaborator.  Both variants. -/
theorem authorization_gate_contract (users : List Int) (uid : Int) :
    (users = [] →
      Mobile.check_authorization users uid = (true, []) ∧
      Render.check_authorization users uid = (true, [])) ∧
    (uid ∈ users →
      Mobile.check_authorization users uid = (true, []) ∧
      Render.check_authorization users uid = (true, [])) ∧
    (users ≠ [] → uid ∉ users →
      Mobile.check_authorization users uid =
        (false, [OutMsg.reply "❌ You are not authorized to use this bot."]) ∧
      Render.check_authorization users uid =
        (false, [OutMsg.reply "❌ You are not authorized to use this bot."]) ∧
      ∀ (msg : Message) (w : World),
        Mobile.handle_file users ⟨uid, msg⟩ w =
          ({ St.init with
              out := [OutMsg.reply "❌ You are not authorized to use this bot."] },
            .denied) ∧
        Render.handle_file users ⟨uid, msg⟩ w =
          ({ St.init with
              out := [OutMsg.reply "❌ You are not authorized to use this bot."] },
            .denied)) := by
  refine ⟨fun he => ?_, fun hmem => ?_, fun hne habs => ?_⟩
  · subst he
    rw [check_authorization_eq]
    constructor <;> simp [Mobile.check_authorization]
  · rw [check_authorization_eq]
    have : Mobile.check_authorization users uid = (true, []) := by
      unfold Mobile.check_authorization
      split_ifs with h1 h2 <;> simp_all
    exact ⟨this, this⟩
  · have hd := check_authorization_denied hne habs
    refine ⟨hd, by rw [check_authorization_eq]; exact hd, fun msg w => ?_⟩
    have hm : Mobile.handle_file users ⟨uid, msg⟩ w =
        ({ St.init with
            out := [OutMsg.reply "❌ You are not authorized to use this bot."] },
          .denied) := by
      simp [Mobile.handle_file, hd, St.init]
    exact ⟨hm, by rw [handle_file_eq]; exact hm⟩

/-- Witness for C5 with allow-list `[7]` and senders `7` and `42`. -/
theorem authorization_gate_contract_witness :
    (([7] : List Int) ≠ [] ∧ (42 : Int) ∉ ([7] : List Int)) ∧
    (Mobile.check_authorization [7] 42 =
      (false, [OutMsg.reply "❌ You are not authorized to use this bot."]) ∧
     Render.check_authorization [7] 42 =
      (false, [OutMsg.reply "❌ You are not authorized to use this bot."]) ∧
     ∀ (msg : Message) (w : World),
       Mobile.handle_file [7] ⟨42, msg⟩ w =
         ({ St.init with
             out := [OutMsg.reply "❌ You are not authorized to use this bot."] },
           .denied) ∧
       Render.handle_file [7] ⟨42, msg⟩ w =
         ({ St.init with
             out := [OutMsg.reply "❌ You are not authorized to use this bot."] },
           .denied)) ∧
    Mobile.check_authorization [7] 7 = (true, []) :=
  ⟨⟨by decide, by decide⟩,
    (authorization_gate_contract [7] 42).2.2 (by decide) (by decide),
    ((authorization_gate_contract [7] 7).2.1 (by decide)).1⟩

/-- C9: the authorization gate guards every user-facing entry point —
start, help, status, plain text (and the file handler, covered by C5):
for a denied sender each handler emits exactly the rejection notice and
nothing else, in both variants. -/
theorem all_entry_points_gated (users : List Int) (uid : Int)
    (q : Except String (Nat × Nat)) (hne : users ≠ []) (habs : uid ∉ users) :
    Mobile.start_command users uid =
      [OutMsg.reply "❌ You are not authorized to use this bot."] ∧
    Mobile.help_command users uid =
      [OutMsg.reply "❌ You are not authorized to use this bot."] ∧
    Mobile.status_command users uid q =
      [OutMsg.reply "❌ You are not authorized to use this bot."] ∧
    Mobile.text_handler users uid =
      [OutMsg.reply "❌ You are not authorized to use this bot."] ∧
    Render.start_command users uid = Mobile.start_command users uid ∧
    Render.help_command users uid = Mobile.help_command users uid ∧
    Render.status_command users uid q = Mobile.status_command users uid q ∧
    Render.text_handler users uid = Mobile.text_handler users uid := by
  have hd := check_authorization_denied hne habs
  refine ⟨?_, ?_, ?_, ?_, ?_, ?_, ?_, ?_⟩
  · simp [Mobile.start_command, hd]
  · simp [Mobile.help_command, hd]
  · simp [Mobile.status_command, hd]
  · simp [Mobile.text_handler, hd]
  · rw [start_command_eq]
  · rw [help_command_eq]
  · rw [status_command_eq]
  · rw [text_handler_eq]

/-- Witness for C9 with allow-list `[7]`, sender `42`. -/
theorem all_entry_points_gated_witness :
    Mobile.start_command [7] 42 =
      [OutMsg.reply "❌ You are not authorized to use this bot."] ∧
    Mobile.help_command [7] 42 =
      [OutMsg.reply "❌ You are not authorized to use this bot."] ∧
    Mobile.status_command [7] 42 (.ok (0, 0)) =
      [OutMsg.reply "❌ You are not authorized to use this bot."] ∧
    Mobile.text_handler [7] 42 =
      [OutMsg.reply "❌ You are not authorized to use this bot."] ∧
    Render.start_command [7] 42 = Mobile.start_command [7] 42 ∧
    Render.help_command [7] 42 = Mobile.help_command [7] 42 ∧
    Render.status_command [7] 42 (.ok (0, 0)) = Mobile.status_command [7] 42 (.ok (0, 0)) ∧
    Render.text_handler [7] 42 = Mobile.text_handler [7] 42 :=
  all_entry_points_gated [7] 42 (.ok (0, 0)) (by decide) (by decide)

/-- C10: an authorized message without a document attachment gets
exactly the "Please send a file document." reply: no temporary storage,
no `get_file`, no storage-provider call, outcome `noDocument`.  Both
variants. -/
theorem no_document_single_notice (users : List Int) (uid : Int) (w : World)
    (hauth : (Mobile.check_authorization users uid).1 = true) :
    Mobile.handle_file users ⟨uid, ⟨none⟩⟩ w =
      ({ St.init with out := [OutMsg.reply "❌ Please send a file document."] },
        .noDocument) ∧
    Render.handle_file users ⟨uid, ⟨none⟩⟩ w =
      ({ St.init with out := [OutMsg.reply "❌ Please send a file document."] },
        .noDocument) := by
  have hpair := check_authorization_true hauth
  have hm : Mobile.handle_file users ⟨uid, ⟨none⟩⟩ w =
      ({ St.init with out := [OutMsg.reply "❌ Please send a file document."] },
        .noDocument) := by
    simp [Mobile.handle_file, hpair, replyText, St.init]
  exact ⟨hm, by rw [handle_file_eq]; exact hm⟩

/-- Witness for C10 with an empty allow-list. -/
theorem no_document_single_notice_witness :
    Mobile.handle_file [] ⟨0, ⟨none⟩⟩ wSuccess =
      ({ St.init with out := [OutMsg.reply "❌ Please send a file document."] },
        .noDocument) ∧
    Render.handle_file [] ⟨0, ⟨none⟩⟩ wSuccess =
      ({ St.init with out := [OutMsg.reply "❌ Please send a file document."] },
        .noDocument) :=
  no_document_single_notice [] 0 wSuccess (by decide)

/-- C7: `create_progress_bar` at width 20 renders exactly 20 cells,
`floor(20·progress/100)` of them filled and the rest empty, followed by
the numeric percentage; in particular 0 → 0 filled, 37 → 7 filled,
100 → 20 filled.  Identical in both variants. -/
theorem progress_bar_shape (p : Nat) (hp : p ≤ 100) :
    Mobile.create_progress_bar p 20 =
      "[" ++ String.mk (List.replicate (20 * p / 100) '█'
          ++ List.replicate (20 - 20 * p / 100) '░')
        ++ "] " ++ toString p ++ "%" ∧
    20 * p / 100 = ⌊((20 * p : ℚ)) / 100⌋₊ ∧
    (List.replicate (20 * p / 100) '█'
      ++ List.replicate (20 - 20 * p / 100) '░').length = 20 ∧
    (List.replicate (20 * p / 100) '█'
      ++ List.replicate (20 - 20 * p / 100) '░').count '█' = 20 * p / 100 ∧
    (List.replicate (20 * p / 100) '█'
      ++ List.replicate (20 - 20 * p / 100) '░').count '░' = 20 - 20 * p / 100 ∧
    Render.create_progress_bar p 20 = Mobile.create_progress_bar p 20 ∧
    20 * 0 / 100 = 0 ∧ 20 * 37 / 100 = 7 ∧ 20 * 100 / 100 = 20 := by
  have hle : 20 * p / 100 ≤ 20 := by
    have h2000 : 20 * p / 100 ≤ 2000 / 100 :=
      Nat.div_le_div_right (show 20 * p ≤ 2000 by omega)
    simpa using h2000
  refine ⟨rfl, ?_, ?_, ?_, ?_, by rw [create_progress_bar_eq], by decide, by decide, by decide⟩
  · rw [show ((100 : ℚ)) = ((100 : ℕ) : ℚ) by norm_num,
      show ((20 * p : ℚ)) = ((20 * p : ℕ) : ℚ) by push_cast; ring,
      Nat.floor_div_nat, Nat.floor_natCast]
  · simp only [List.length_append, List.length_replicate]
    omega
  · simp [List.count_append, List.count_replicate_self, List.count_replicate]
  · simp [List.count_append, List.count_replicate_self, List.count_replicate]

/-- Witness for C7 at `progress = 37`. -/
theorem progress_bar_shape_witness :
    Mobile.create_progress_bar 37 20 =
      "[" ++ String.mk (List.replicate (20 * 37 / 100) '█'
          ++ List.replicate (20 - 20 * 37 / 100) '░')
        ++ "] " ++ toString 37 ++ "%" ∧
    20 * 37 / 100 = ⌊((20 * 37 : ℚ)) / 100⌋₊ ∧
    (List.replicate (20 * 37 / 100) '█'
      ++ List.replicate (20 - 20 * 37 / 100) '░').length = 20 ∧
    (List.replicate (20 * 37 / 100) '█'
      ++ List.replicate (20 - 20 * 37 / 100) '░').count '█' = 20 * 37 / 100 ∧
    (List.replicate (20 * 37 / 100) '█'
      ++ List.replicate (20 - 20 * 37 / 100) '░').count '░' = 20 - 20 * 37 / 100 ∧
    Render.create_progress_bar 37 20 = Mobile.create_progress_bar 37 20 ∧
    20 * 0 / 100 = 0 ∧ 20 * 37 / 100 = 7 ∧ 20 * 100 / 100 = 20 :=
  progress_bar_shape 37 (by decide)

/-- C8: the two variants implement the same core pipeline: for every
inbound event and identical collaborator behaviour, the file handler,
every command handler, the text handler, the authorization check and
the formatting functions of the webhook variant and the polling variant
produce identical user-visible output and outcomes. -/
theorem variants_equivalent :
    (∀ (users : List Int) (upd : IncomingUpdate) (w : World),
      Render.handle_file users upd w = Mobile.handle_file users upd w) ∧
    (∀ (users : List Int) (uid : Int),
      Render.check_authorization users uid = Mobile.check_authorization users uid) ∧
    (∀ (users : List Int) (uid : Int),
      Render.start_command users uid = Mobile.start_command users uid) ∧
    (∀ (users : List Int) (uid : Int),
      Render.help_command users uid = Mobile.help_command users uid) ∧
    (∀ (users : List Int) (uid : Int) (q : Except String (Nat × Nat)),
      Render.status_command users uid q = Mobile.status_command users uid q) ∧
    (∀ (users : List Int) (uid : Int),
      Render.text_handler users uid = Mobile.text_handler users uid) ∧
    (∀ (p wd : Nat), Render.create_progress_bar p wd = Mobile.create_progress_bar p wd) ∧
    (∀ n : Nat, Render.format_file_size n = Mobile.format_file_size n) := by
  refine ⟨handle_file_eq, ?_, ?_, ?_, ?_, ?_, ?_, ?_⟩ <;> intros <;>
    simp [check_authorization_eq, start_command_eq, help_command_eq,
      status_command_eq, text_handler_eq, create_progress_bar_eq, format_file_size_eq]

/-- State component of a download-loop result. -/
def dlResSt : Except (St × String) St → St
  | .error (s, _) => s
  | .ok s => s

/-- State component of an upload-loop result. -/
def upResSt : Except (St × PyErr) (St × String × Option String) → St
  | .error (s, _) => s
  | .ok (s, _, _) => s

/-- State component of an upload-phase / try-body result. -/
def phaseResSt : Except (St × PyErr) (St × Outcome) → St
  | .error (s, _) => s
  | .ok (s, _) => s

theorem editText_fst_dlPushes (w : World) (s : St) (t : String) :
    ((editText w s t).1).dlPushes = s.dlPushes := by
  unfold editText
  cases w.editErr s.editCalls <;> rfl

theorem cleanupTemp_dlPushes (s : St) : (cleanupTemp s).dlPushes = s.dlPushes := by
  unfold cleanupTemp
  split <;> rfl

/-- The upload loop never touches the download-push ghost trace. -/
theorem upLoop_dlPushes (w : World) (fs : Nat) (fn : String) :
    ∀ (acks : List (Nat × Nat)) (last : Int) (s : St),
      (upResSt (Mobile.upLoop w fs fn acks last s)).dlPushes = s.dlPushes
  | [], _, s => by
    unfold Mobile.upLoop
    cases w.upEnd <;> rfl
  | (num, den) :: rest, last, s => by
    simp only [Mobile.upLoop]
    by_cases hc : ((num * 100 / den : Nat) : Int) - last ≥ 5
    · rw [if_pos hc]
      rcases het : editText w s (Mobile.upMsg (num * 100 / den) (fs * num / den) fs fn)
        with ⟨s', oe⟩
      have hps : s'.dlPushes = s.dlPushes := by
        have h := editText_fst_dlPushes w s (Mobile.upMsg (num * 100 / den) (fs * num / den) fs fn)
        rw [het] at h
        exact h
      cases oe with
      | some e => simpa [upResSt] using hps
      | none =>
        rw [upLoop_dlPushes w fs fn rest _ _]
        simpa using hps
    · rw [if_neg hc]
      exact upLoop_dlPushes w fs fn rest last s

/-- Result-parametric form of `upLoop_dlPushes`. -/
theorem upLoop_dlPushes_eq {w : World} {fs : Nat} {fn : String}
    {acks : List (Nat × Nat)} {last : Int} {s : St}
    {r : Except (St × PyErr) (St × String × Option String)}
    (h : Mobile.upLoop w fs fn acks last s = r) :
    (upResSt r).dlPushes = s.dlPushes := by
  subst h
  exact upLoop_dlPushes w fs fn acks last s

/-- Result-parametric form of `editText_fst_dlPushes`. -/
theorem editText_dlPushes_eq {w : World} {s s' : St} {t : String}
    {oe : Option String} (h : editText w s t = (s', oe)) :
    s'.dlPushes = s.dlPushes := by
  have h2 := editText_fst_dlPushes w s t
  rw [h] at h2
  exact h2

/-- The upload phase never touches the download-push ghost trace. -/
theorem uploadPhase_dlPushes (w : World) (fs : Nat) (fn : String) (s : St) :
    (phaseResSt (Mobile.uploadPhase w fs fn s)).dlPushes = s.dlPushes := by
  unfold Mobile.uploadPhase
  cases hgd : w.getDriveErr with
  | some e => rfl
  | none =>
    dsimp only
    rcases hu : Mobile.upLoop w fs fn w.upAcks (-1) { s with driveCalls := s.driveCalls + 1 }
      with ⟨s1, e1⟩ | ⟨s1, fid, link⟩
    · have hul := upLoop_dlPushes_eq hu
      simpa [phaseResSt, upResSt] using hul
    · have hul := upLoop_dlPushes_eq hu
      dsimp [upResSt] at hul
      rcases het : editText w s1 (Mobile.successMsg fn fs fid link) with ⟨s2, oe⟩
      have hps : s2.dlPushes = s1.dlPushes := editText_dlPushes_eq het
      cases oe with
      | some e => simp [phaseResSt, het, hps, hul]
      | none => simp [phaseResSt, het, hps, hul]

/-- The whole upload section never touches the download-push ghost
trace. -/
theorem uploadSection_dlPushes (w : World) (fs : Nat) (fn : String) (s : St) :
    (phaseResSt (Mobile.uploadSection w fs fn s)).dlPushes = s.dlPushes := by
  unfold Mobile.uploadSection
  rcases hp : Mobile.uploadPhase w fs fn s with ⟨s1, pe⟩ | ⟨s1, o⟩ <;>
    have hph := uploadPhase_dlPushes w fs fn s <;> rw [hp] at hph <;>
    dsimp [phaseResSt] at hph
  · cases pe with
    | http e =>
      dsimp only
      rcases het : editText w s1 (Mobile.uploadFailMsg fn e) with ⟨s2, oe⟩
      have hps : s2.dlPushes = s1.dlPushes := editText_dlPushes_eq het
      cases oe with
      | some e2 => simp [phaseResSt, cleanupTemp_dlPushes, het, hps, hph]
      | none => simp [phaseResSt, cleanupTemp_dlPushes, het, hps, hph]
    | other e => simp [phaseResSt, cleanupTemp_dlPushes, hph]
  · simp [phaseResSt, cleanupTemp_dlPushes, hph]

/-- Appending an upper bound to a sorted list keeps it sorted. -/
theorem chain'_le_append_last {l : List Nat} {p : Nat}
    (hc : List.Chain' (· ≤ ·) l) (hall : ∀ x ∈ l, x ≤ p) :
    List.Chain' (· ≤ ·) (l ++ [p]) := by
  rw [List.chain'_append]
  refine ⟨hc, List.chain'_singleton p, fun x hx y hy => ?_⟩
  simp only [List.head?_cons, Option.mem_def, Option.some.injEq] at hy
  subst hy
  rcases List.mem_getLast?_eq_getLast hx with ⟨hne, rfl⟩
  exact hall _ (List.getLast_mem hne)

/-- Invariant of the download loop: starting from a sorted push trace
whose elements are all at most `last`, the resulting push trace is
sorted (each push strictly exceeds the previous `last` by at least 3,
and `last` is updated to it). -/
theorem dlLoop_pushes_chain (w : World) (size : Nat) :
    ∀ (chunks : List Nat) (d : Nat) (last : Int) (s : St),
      (∀ x ∈ s.dlPushes, (x : Int) ≤ last) →
      List.Chain' (· ≤ ·) s.dlPushes →
      ∀ r, Mobile.dlLoop w size chunks d last s = r →
      List.Chain' (· ≤ ·) (dlResSt r).dlPushes
  | [], d, last, s => by
    intro hall hc r hr
    unfold Mobile.dlLoop at hr
    rcases hde : w.dlErr with _ | e <;> rw [hde] at hr <;> subst hr <;>
      simpa [dlResSt] using hc
  | c :: rest, d, last, s => by
    intro hall hc r hr
    simp only [Mobile.dlLoop] at hr
    rcases hdp : Mobile.downloadProgress (d + c) size with _ | progress <;>
      rw [hdp] at hr
    · subst hr
      simpa [dlResSt] using hc
    · dsimp only at hr
      by_cases hcond : (progress : Int) - last ≥ 3
      · rw [if_pos hcond] at hr
        rcases het : editText w s (Mobile.dlMsg progress (d + c) size) with ⟨s', oe⟩
        rw [het] at hr
        have hps : s'.dlPushes = s.dlPushes := editText_dlPushes_eq het
        cases oe with
        | some e =>
          subst hr
          simpa [dlResSt, hps] using hc
        | none =>
          refine dlLoop_pushes_chain w size rest (d + c) (progress : Int) _ ?_ ?_ r hr
          · intro x hx
            simp only [hps, List.mem_append, List.mem_singleton] at hx
            rcases hx with hx | rfl
            · have := hall x hx
              omega
            · omega
          · simp only [hps]
            refine chain'_le_append_last hc fun x hx => ?_
            have := hall x hx
            omega
      · rw [if_neg hcond] at hr
        exact dlLoop_pushes_chain w size rest (d + c) last s hall hc r hr

/-- The try body's final push trace is sorted when it starts empty. -/
theorem tryBody_pushes_chain (w : World) (fn : String) (fs : Nat) (s : St)
    (hs : s.dlPushes = []) :
    List.Chain' (· ≤ ·) ((phaseResSt (Mobile.tryBody w fn fs s)).dlPushes) := by
  unfold Mobile.tryBody
  dsimp only
  split
  · simpa [phaseResSt, replyText] using (hs ▸ List.chain'_nil)
  · split
    · next s4 e hdl =>
      have := dlLoop_pushes_chain w fs w.chunks 0 (-1) _
        (by simp [replyText, hs]) (by simp [replyText, hs]) _ hdl
      simpa [dlResSt, phaseResSt] using this
    · next s4 hdl =>
      have hchain : List.Chain' (· ≤ ·) s4.dlPushes := by
        have := dlLoop_pushes_chain w fs w.chunks 0 (-1) _
          (by simp [replyText, hs]) (by simp [replyText, hs]) _ hdl
        simpa [dlResSt] using this
      split
      · next s5 e het =>
        have hps : s5.dlPushes = s4.dlPushes := editText_dlPushes_eq het
        simpa [phaseResSt, hps] using hchain
      · next s5 het =>
        have hps : s5.dlPushes = s4.dlPushes := editText_dlPushes_eq het
        rw [uploadSection_dlPushes, hps]
        exact hchain

/-- Result-parametric form of `tryBody_pushes_chain`. -/
theorem tryBody_pushes_chain_eq {w : World} {fn : String} {fs : Nat} {s : St}
    {r : Except (St × PyErr) (St × Outcome)} (h : Mobile.tryBody w fn fs s = r)
    (hs : s.dlPushes = []) :
    List.Chain' (· ≤ ·) ((phaseResSt r).dlPushes) := by
  subst h
  exact tryBody_pushes_chain w fn fs s hs

/-- C4-support: over a whole `handle_file` run the pushed download
percentages are monotonically non-decreasing. -/
theorem handle_file_dlPushes_chain (users : List Int) (upd : IncomingUpdate)
    (w : World) :
    List.Chain' (· ≤ ·) ((Mobile.handle_file users upd w).1.dlPushes) := by
  rcases check_authorization_cases users upd.user_id with h | h
  · simp only [Mobile.handle_file, h, Bool.not_true, Bool.false_eq_true, if_false]
    rcases hdoc : upd.message.document with _ | doc
    · simp [replyText, St.init]
    · dsimp only
      split
      · simp [replyText, St.init]
      · split
        · next s2 o2 htb =>
          have := tryBody_pushes_chain_eq htb (by simp [replyText, St.init])
          simpa [phaseResSt] using this
        · next s2 e htb =>
          have := tryBody_pushes_chain_eq htb (by simp [replyText, St.init])
          simpa [phaseResSt, replyText] using this
  · simp [Mobile.handle_file, h, St.init]

/-- C4: push cadence.  In the download loop a status push happens after
a chunk if and only if the new progress minus the last pushed value is
at least 3 (the push appends exactly one status edit and records the
percentage; otherwise nothing is emitted), and over a whole run the
pushed download percentages are monotonically non-decreasing; in the
upload loop a push happens after an acknowledgment if and only if the
new progress minus the last pushed value is at least 5.  (`last` starts
at the sentinel −1 in both loops, as in the source.) -/
theorem progress_push_cadence (w : World) (size c : Nat) (rest : List Nat)
    (d : Nat) (last : Int) (s : St) (users : List Int) (upd : IncomingUpdate)
    (w2 : World) (fs2 : Nat) (fn : String) (num den : Nat)
    (urest : List (Nat × Nat)) (ulast : Int)
    (hsize : 0 < size) (hedit : w.editErr s.editCalls = none) :
    (Mobile.dlLoop w size (c :: rest) d last s =
      (let progress := min ((d + c) * 100 / size) 100
       if (progress : Int) - last ≥ 3 then
         Mobile.dlLoop w size rest (d + c) (progress : Int)
           { s with editCalls := s.editCalls + 1,
                    out := s.out ++ [OutMsg.edit (Mobile.dlMsg progress (d + c) size)],
                    dlPushes := s.dlPushes ++ [progress] }
       else Mobile.dlLoop w size rest (d + c) last s)) ∧
    List.Chain' (· ≤ ·) ((Mobile.handle_file users upd w2).1.dlPushes) ∧
    (Mobile.upLoop w fs2 fn ((num, den) :: urest) ulast s =
      (let progress := num * 100 / den
       if (progress : Int) - ulast ≥ 5 then
         Mobile.upLoop w fs2 fn urest (progress : Int)
           { s with editCalls := s.editCalls + 1,
                    out := s.out ++ [OutMsg.edit (Mobile.upMsg progress (fs2 * num / den) fs2 fn)],
                    upPushes := s.upPushes ++ [progress] }
       else Mobile.upLoop w fs2 fn urest ulast s)) := by
  refine ⟨?_, handle_file_dlPushes_chain users upd w2, ?_⟩
  · have hfs : ¬ size = 0 := by omega
    simp only [Mobile.dlLoop, Mobile.downloadProgress, if_neg hfs, editText, hedit]
  · simp only [Mobile.upLoop, editText, hedit]

/-- Witness for C4: one 1-byte chunk of a 5-byte file (progress 20,
pushed since 20−(−1) ≥ 3), the concrete successful run, and one upload
acknowledgment at fraction 1/2 (progress 50, pushed since
50−(−1) ≥ 5). -/
theorem progress_push_cadence_witness :
    (Mobile.dlLoop wSuccess 5 [1] 0 (-1) St.init =
      (let progress : Nat := min ((0 + 1) * 100 / 5) 100
       if (progress : Int) - (-1) ≥ 3 then
         Mobile.dlLoop wSuccess 5 [] (0 + 1) (progress : Int)
           { St.init with
               editCalls := St.init.editCalls + 1,
               out := St.init.out ++ [OutMsg.edit (Mobile.dlMsg progress (0 + 1) 5)],
               dlPushes := St.init.dlPushes ++ [progress] }
       else Mobile.dlLoop wSuccess 5 [] (0 + 1) (-1) St.init)) ∧
    List.Chain' (· ≤ ·) ((Mobile.handle_file [] filmUpd wSuccess).1.dlPushes) ∧
    (Mobile.upLoop wSuccess 10 "f.bin" [(1, 2)] (-1) St.init =
      (let progress : Nat := 1 * 100 / 2
       if (progress : Int) - (-1) ≥ 5 then
         Mobile.upLoop wSuccess 10 "f.bin" [] (progress : Int)
           { St.init with
               editCalls := St.init.editCalls + 1,
               out := St.init.out ++ [OutMsg.edit (Mobile.upMsg progress (10 * 1 / 2) 10 "f.bin")],
               upPushes := St.init.upPushes ++ [progress] }
       else Mobile.upLoop wSuccess 10 "f.bin" [] (-1) St.init)) :=
  progress_push_cadence wSuccess 5 1 [] 0 (-1) St.init [] filmUpd wSuccess
    10 "f.bin" 1 2 [] (-1) (by decide) rfl
